import Mathlib

/-!
Verification of the hardened ("correct-program") Anchor programs of the
Anchor-Pinocchio security-bounty repository.

Each Rust instruction handler, together with the Anchor accounts-struct
constraints that the runtime evaluates before it, is shallowly embedded as a
pure Lean function from the call context and the current persistent account
state to a run result: an optional abort reason, the resulting account state,
and the list of sub-invocation (CPI) targets actually invoked, in order.

Machine integers: all persisted numeric fields are 64-bit unsigned in the
source; they are modelled as `Nat` with the checked operations failing exactly
at the `u64` boundaries (`2 ^ 64`).

Anchor framework behaviour (the semantics of `Signer`, `Account`, `Program`,
`seeds`/`bump`/`has_one` constraints, program-derived addresses) is not part of
the repository's own sources; where a definition encodes it, its doc comment
says so and names the spec text it follows.
-/

namespace AnchorSecurity

/-- Public-key identities (Solana `Pubkey` values) are modelled as naturals. -/
abbrev Pubkey := Nat

/-- First value out of range for a `u64` field: `2 ^ 64`, written as a
literal so that it reduces fast. -/
def U64_MOD : Nat := 18446744073709551616

theorem U64_MOD_eq_two_pow : U64_MOD = 2 ^ 64 := by norm_num [U64_MOD]

/-- Rust `u64::checked_add`: `none` exactly when `a + b` exceeds `u64::MAX`. -/
def checked_add (a b : Nat) : Option Nat :=
  if a + b < U64_MOD then some (a + b) else none

/-- Rust `u64::checked_sub`: `none` exactly when `b > a`. -/
def checked_sub (a b : Nat) : Option Nat :=
  if b ≤ a then some (a - b) else none

/-- Rust `u64::checked_mul`: `none` exactly when `a * b` exceeds `u64::MAX`. -/
def checked_mul (a b : Nat) : Option Nat :=
  if a * b < U64_MOD then some (a * b) else none

/-- Rust `u64::checked_div`: `none` exactly when the divisor is zero;
otherwise the floor quotient. -/
def checked_div (a b : Nat) : Option Nat :=
  if b = 0 then none else some (a / b)

/-- Abort reasons.  The first six constructors are the repository's own
`#[error_code]` variants; `ownershipMismatch`, `typeTagMismatch`,
`derivationMismatch`, `missingSignature`, `hasOneMismatch` and
`invalidProgramId` are the Anchor constraint failures (named as in the spec's
error taxonomy); `panicAbort` is a Rust `unwrap()` of `None`, which on-chain
aborts the invocation without a typed error code. -/
inductive Err where
  | overflow            -- integer program `ErrorCode::Overflow`
  | insufficientPoints  -- integer program `ErrorCode::InsufficientPoints`
  | divisionByZero      -- integer program `ErrorCode::DivisionByZero`
  | unauthorized        -- signer program `ErrorCode::Unauthorized`
  | insufficientFunds   -- signer program `ErrorCode::InsufficientFunds`
  | unauthorizedProgram -- CPI program `ErrorCode::UnauthorizedProgram`
  | ownershipMismatch   -- `Account<T>` owner check (spec: OwnershipMismatch)
  | typeTagMismatch     -- `Account<T>` discriminator check (spec: TypeTagMismatch)
  | derivationMismatch  -- `seeds`/`bump` constraint (spec: DerivationMismatch)
  | missingSignature    -- `Signer<T>` check (spec: MissingSignature)
  | hasOneMismatch      -- `has_one` constraint
  | invalidProgramId    -- `Program<T>` identity check
  | panicAbort          -- Rust panic from `unwrap()` on `None`
  deriving DecidableEq, Repr

/-- The structured, caller-recoverable error codes — the repository's
`#[error_code]` variants together with the Anchor constraint failures of the
spec's taxonomy; every abort reason except the raw `unwrap` panic. -/
def structuredErrs : List Err :=
  [Err.overflow, Err.insufficientPoints, Err.divisionByZero,
   Err.unauthorized, Err.insufficientFunds, Err.unauthorizedProgram,
   Err.ownershipMismatch, Err.typeTagMismatch, Err.derivationMismatch,
   Err.missingSignature, Err.hasOneMismatch, Err.invalidProgramId]

/-- Result of running one instruction (accounts validation plus handler):
the abort reason if any, the persistent state of the touched account after
the handler body stopped, and the CPI targets invoked before it stopped. -/
structure RunResult (S : Type) where
  err : Option Err
  state : S
  invocations : List Pubkey
  deriving DecidableEq, Repr

/-- The system program's identity (`anchor_lang::system_program`). -/
def SYSTEM_PROGRAM_ID : Pubkey := 1

/-- The SPL token program's identity (`anchor_spl::token::ID`). -/
def TOKEN_PROGRAM_ID : Pubkey := 2

/-- `declare_id!` identity of the hardened account-ownership program. -/
def ACC_PROGRAM_ID : Pubkey := 3

/-- Numeric stand-in for the seed byte string `b"vault"` (its ASCII bytes). -/
def VAULT_TAG : Nat := 0x7661756c74

/-- Modelled from the spec: the deterministic program-derived-address
computation is part of the Solana runtime, not of this repository's sources.
Following "deterministically recompute the expected address" from the seed
tuple (domain tag, authority) and bump, it is modelled as an injective pairing
of the three inputs. -/
def derivePda (tag : Nat) (authority : Pubkey) (bump : Nat) : Pubkey :=
  Nat.pair tag (Nat.pair authority bump)

/- ------------------------------------------------------------------
`integer_overflow_secure` — src/INTEGER OVERFLOW AND UNDERFLOW/correct-program.rs
------------------------------------------------------------------ -/

/-- Persisted `User` account of the integer-overflow program. -/
structure User where
  authority : Pubkey
  points : Nat
  tokens : Nat
  deriving DecidableEq, Repr

/-- `initialize`: accounts validation requires the payer `authority` to be a
`Signer` (modelled from the spec's Signer Verifier); the handler stores the
authority key and zeroes `points` and `tokens`.  Account creation itself is
the storage boundary, out of scope per the spec. -/
def io_init (signers : List Pubkey) (authorityKey : Pubkey) : Except Err User :=
  if authorityKey ∈ signers then
    Except.ok { authority := authorityKey, points := 0, tokens := 0 }
  else
    Except.error Err.missingSignature

/-- `UpdateUser` accounts validation, shared by the four update handlers:
`authority` must be a `Signer` (checked at account extraction; modelled from
the spec's Signer Verifier), and `has_one = authority` requires
`user.authority == authority.key()`. Returns the first failure. -/
def updateUserCheck (signers : List Pubkey) (authorityKey : Pubkey)
    (user : User) : Option Err :=
  if authorityKey ∉ signers then some Err.missingSignature
  else if user.authority ≠ authorityKey then some Err.hasOneMismatch
  else none

/-- `add_points`: after `UpdateUser` validation,
`user.points = user.points.checked_add(points).ok_or(ErrorCode::Overflow)?`. -/
def io_add_points (signers : List Pubkey) (authorityKey : Pubkey)
    (user : User) (points : Nat) : RunResult User :=
  match updateUserCheck signers authorityKey user with
  | some e => ⟨some e, user, []⟩
  | none =>
    match checked_add user.points points with
    | none => ⟨some Err.overflow, user, []⟩
    | some p => ⟨none, { user with points := p }, []⟩

/-- `remove_points`: after `UpdateUser` validation,
`user.points = user.points.checked_sub(points).ok_or(ErrorCode::InsufficientPoints)?`. -/
def io_remove_points (signers : List Pubkey) (authorityKey : Pubkey)
    (user : User) (points : Nat) : RunResult User :=
  match updateUserCheck signers authorityKey user with
  | some e => ⟨some e, user, []⟩
  | none =>
    match checked_sub user.points points with
    | none => ⟨some Err.insufficientPoints, user, []⟩
    | some p => ⟨none, { user with points := p }, []⟩

/-- `calculate_tokens`: after `UpdateUser` validation,
`user.tokens = user.points.checked_mul(multiplier).ok_or(ErrorCode::Overflow)?`. -/
def io_calculate_tokens (signers : List Pubkey) (authorityKey : Pubkey)
    (user : User) (multiplier : Nat) : RunResult User :=
  match updateUserCheck signers authorityKey user with
  | some e => ⟨some e, user, []⟩
  | none =>
    match checked_mul user.points multiplier with
    | none => ⟨some Err.overflow, user, []⟩
    | some t => ⟨none, { user with tokens := t }, []⟩

/-- `calculate_average`: after `UpdateUser` validation,
`user.tokens = user.points.checked_div(divisor).ok_or(ErrorCode::DivisionByZero)?`. -/
def io_calculate_average (signers : List Pubkey) (authorityKey : Pubkey)
    (user : User) (divisor : Nat) : RunResult User :=
  match updateUserCheck signers authorityKey user with
  | some e => ⟨some e, user, []⟩
  | none =>
    match checked_div user.points divisor with
    | none => ⟨some Err.divisionByZero, user, []⟩
    | some t => ⟨none, { user with tokens := t }, []⟩

/- ------------------------------------------------------------------
`missing_signer_secure` — src/MISSING SIGNER CHECK/correct-program.rs
------------------------------------------------------------------ -/

/-- Persisted `Vault` account of the missing-signer and PDA programs
(`authority : Pubkey`, `balance : u64`, `bump : u8`). -/
structure Vault where
  authority : Pubkey
  balance : Nat
  bump : Nat
  deriving DecidableEq, Repr

/-- `initialize` of the missing-signer program: the payer `authority` must be
a `Signer`; the vault is created at the canonical derived address with the
canonical bump, which the handler stores (`vault.bump = ctx.bumps.vault`).
The returned pair is (vault address, vault state); account creation itself is
the storage boundary, out of scope per the spec. -/
def ms_init (signers : List Pubkey) (authorityKey : Pubkey) (canonicalBump : Nat) :
    Except Err (Pubkey × Vault) :=
  if authorityKey ∈ signers then
    Except.ok (derivePda VAULT_TAG authorityKey canonicalBump,
      { authority := authorityKey, balance := 0, bump := canonicalBump })
  else
    Except.error Err.missingSignature

/-- `deposit` of the missing-signer program.  `Deposit` accounts validation
(modelled from the spec's Signer and Derivation Verifiers): `user` must be a
`Signer`; the vault must sit at `derivePda(b"vault", vault.authority, vault.bump)`.
The handler then FIRST performs the system-program transfer CPI and only
afterwards runs `vault.balance = vault.balance.checked_add(amount).unwrap()`,
panicking when the sum exceeds `u64::MAX`. -/
def ms_deposit (signers : List Pubkey) (userKey : Pubkey) (vaultAddr : Pubkey)
    (vault : Vault) (amount : Nat) : RunResult Vault :=
  if userKey ∉ signers then ⟨some Err.missingSignature, vault, []⟩
  else if vaultAddr ≠ derivePda VAULT_TAG vault.authority vault.bump then
    ⟨some Err.derivationMismatch, vault, []⟩
  else
    match checked_add vault.balance amount with
    | none => ⟨some Err.panicAbort, vault, [SYSTEM_PROGRAM_ID]⟩
    | some b => ⟨none, { vault with balance := b }, [SYSTEM_PROGRAM_ID]⟩

/-- `withdraw` of the missing-signer program.  `SecureWithdraw` accounts
validation (modelled from the spec's Signer and Derivation Verifiers):
`authority` must be a `Signer`; the vault must sit at
`derivePda(b"vault", vault.authority, vault.bump)`.  The handler then requires
`vault.authority == authority.key()` (`ErrorCode::Unauthorized`), requires
`vault.balance >= amount` (`ErrorCode::InsufficientFunds`), performs the
system-program transfer CPI, and finally runs
`vault.balance = vault.balance.checked_sub(amount).unwrap()`. -/
def ms_withdraw (signers : List Pubkey) (authorityKey : Pubkey)
    (vaultAddr : Pubkey) (vault : Vault) (amount : Nat) : RunResult Vault :=
  if authorityKey ∉ signers then ⟨some Err.missingSignature, vault, []⟩
  else if vaultAddr ≠ derivePda VAULT_TAG vault.authority vault.bump then
    ⟨some Err.derivationMismatch, vault, []⟩
  else if vault.authority ≠ authorityKey then ⟨some Err.unauthorized, vault, []⟩
  else if vault.balance < amount then ⟨some Err.insufficientFunds, vault, []⟩
  else
    match checked_sub vault.balance amount with
    | none => ⟨some Err.panicAbort, vault, [SYSTEM_PROGRAM_ID]⟩
    | some b => ⟨none, { vault with balance := b }, [SYSTEM_PROGRAM_ID]⟩

/- ------------------------------------------------------------------
`pda_validation_secure` — src/PDA VALIDATION/correct-program.rs
------------------------------------------------------------------ -/

/-- `initialize` of the PDA program: identical shape to `ms_init` — the vault
is created at the canonical derived address for the paying authority and the
canonical bump is stored on it. -/
def pda_init (signers : List Pubkey) (authorityKey : Pubkey) (canonicalBump : Nat) :
    Except Err (Pubkey × Vault) :=
  if authorityKey ∈ signers then
    Except.ok (derivePda VAULT_TAG authorityKey canonicalBump,
      { authority := authorityKey, balance := 0, bump := canonicalBump })
  else
    Except.error Err.missingSignature

/-- `deposit` of the PDA program.  `Deposit` accounts validation (modelled
from the spec's Signer and Derivation Verifiers): `authority` must be a
`Signer`; the vault must sit at `derivePda(b"vault", authority.key(), vault.bump)`.
The handler runs `vault.balance = vault.balance.checked_add(amount).unwrap()`;
no CPI is performed. -/
def pda_deposit (signers : List Pubkey) (authorityKey : Pubkey)
    (vaultAddr : Pubkey) (vault : Vault) (amount : Nat) : RunResult Vault :=
  if authorityKey ∉ signers then ⟨some Err.missingSignature, vault, []⟩
  else if vaultAddr ≠ derivePda VAULT_TAG authorityKey vault.bump then
    ⟨some Err.derivationMismatch, vault, []⟩
  else
    match checked_add vault.balance amount with
    | none => ⟨some Err.panicAbort, vault, []⟩
    | some b => ⟨none, { vault with balance := b }, []⟩

/-- `withdraw` of the PDA program.  `SecureWithdraw` accounts validation
(modelled from the spec's Signer and Derivation Verifiers): `authority` must
be a `Signer`; the vault supplied must sit at
`derivePda(b"vault", authority.key(), vault.bump)` — the bump is the one
STORED on the account, not caller-supplied.  The handler then runs
`vault.balance = vault.balance.checked_sub(amount).unwrap()`, panicking when
`amount > vault.balance`; no CPI is performed. -/
def pda_withdraw (signers : List Pubkey) (authorityKey : Pubkey)
    (vaultAddr : Pubkey) (vault : Vault) (amount : Nat) : RunResult Vault :=
  if authorityKey ∉ signers then ⟨some Err.missingSignature, vault, []⟩
  else if vaultAddr ≠ derivePda VAULT_TAG authorityKey vault.bump then
    ⟨some Err.derivationMismatch, vault, []⟩
  else
    match checked_sub vault.balance amount with
    | none => ⟨some Err.panicAbort, vault, []⟩
    | some b => ⟨none, { vault with balance := b }, []⟩

/- ------------------------------------------------------------------
`account_ownership_secure` — src/ACCOUNT OWNERSHIP VALIDATION/correct-program.rs
------------------------------------------------------------------ -/

/-- Typed fields of the `UserAccount` record (`owner : Pubkey`,
`balance : u64`, `points : u64`). -/
structure UserAccount where
  owner : Pubkey
  balance : Nat
  points : Nat
  deriving DecidableEq, Repr

/-- Expected discriminator value for `UserAccount` data (Anchor derives it
from the type name; only equality with the expected tag matters here). -/
def USER_ACCOUNT_TAG : Nat := 10

/-- A raw account handle as the runtime supplies it: the owning program
recorded by the ledger, the leading discriminator/tag bytes, and the decoded
field values that follow them. -/
structure RawAccount where
  owningProgram : Pubkey
  tag : Nat
  data : UserAccount
  deriving DecidableEq, Repr

/-- Modelled from the spec: `Account<'info, UserAccount>` extraction, part of
the Anchor framework.  Per the spec's Identity Verifier, it confirms (a) the
account's stored owning-program identity equals the current program's own
identity and (b) the leading discriminator/tag bytes match the expected kind,
in that order, before any typed field is read. -/
def accountExtract (raw : RawAccount) : Except Err UserAccount :=
  if raw.owningProgram ≠ ACC_PROGRAM_ID then Except.error Err.ownershipMismatch
  else if raw.tag ≠ USER_ACCOUNT_TAG then Except.error Err.typeTagMismatch
  else Except.ok raw.data

/-- `add_points` of the ownership program.  `SecureAddPoints` accounts
validation: `Account<UserAccount>` extraction (owner then discriminator),
`owner` must be a `Signer`, and `has_one = owner` requires
`user_account.owner == owner.key()`.  The handler then runs
`user_account.points = user_account.points.checked_add(points).unwrap()`,
panicking on `u64` overflow. -/
def acc_add_points (signers : List Pubkey) (ownerKey : Pubkey)
    (raw : RawAccount) (points : Nat) : RunResult RawAccount :=
  match accountExtract raw with
  | Except.error e => ⟨some e, raw, []⟩
  | Except.ok ua =>
    if ownerKey ∉ signers then ⟨some Err.missingSignature, raw, []⟩
    else if ua.owner ≠ ownerKey then ⟨some Err.hasOneMismatch, raw, []⟩
    else
      match checked_add ua.points points with
      | none => ⟨some Err.panicAbort, raw, []⟩
      | some p => ⟨none, { raw with data := { ua with points := p } }, []⟩

/-- `claim_reward` of the ownership program.  `SecureClaimReward` accounts
validation: `Account<UserAccount>` extraction, `owner` a `Signer`,
`has_one = owner`.  The handler reads `user_account.points / 100` and mutates
nothing.  The run result also reports the computed reward. -/
def acc_claim_reward (signers : List Pubkey) (ownerKey : Pubkey)
    (raw : RawAccount) : RunResult RawAccount × Nat :=
  match accountExtract raw with
  | Except.error e => (⟨some e, raw, []⟩, 0)
  | Except.ok ua =>
    if ownerKey ∉ signers then (⟨some Err.missingSignature, raw, []⟩, 0)
    else if ua.owner ≠ ownerKey then (⟨some Err.hasOneMismatch, raw, []⟩, 0)
    else (⟨none, raw, []⟩, ua.points / 100)

/- ------------------------------------------------------------------
`arbitrary_cpi_secure` — src/ARBITRARY CPI/correct-program.rs
------------------------------------------------------------------ -/

/-- The whitelist of allowed CPI targets: `pub const ALLOWED_PROGRAMS:
&[Pubkey] = &[anchor_spl::token::ID]`.  A compile-time constant, never
mutated at runtime. -/
def ALLOWED_PROGRAMS : List Pubkey := [TOKEN_PROGRAM_ID]

/-- `call_whitelisted_program`.  `CallWhitelisted` accounts validation:
`authority` must be a `Signer`; `target_program` is a raw `AccountInfo`
(no constraint).  The handler requires
`ALLOWED_PROGRAMS.contains(&target_program.key())`
(`ErrorCode::UnauthorizedProgram`).  No CPI is performed on any path. -/
def cpi_call_whitelisted (signers : List Pubkey) (authorityKey : Pubkey)
    (targetProgram : Pubkey) : RunResult Unit :=
  if authorityKey ∉ signers then ⟨some Err.missingSignature, (), []⟩
  else if targetProgram ∈ ALLOWED_PROGRAMS then ⟨none, (), []⟩
  else ⟨some Err.unauthorizedProgram, (), []⟩

/-- `execute_token_transfer`.  `SecureTokenTransfer` accounts validation:
`from` and `to` are `Account<TokenAccount>` handles, so each must be owned by
the token program (extraction, modelled from the spec's Identity Verifier);
`authority` must be a `Signer`; `token_program : Program<Token>` requires the
supplied program's key to equal `anchor_spl::token::ID`.  The handler performs
the token-program transfer CPI. -/
def cpi_execute_transfer (signers : List Pubkey)
    (fromOwner toOwner : Pubkey) (authorityKey : Pubkey)
    (tokenProgramKey : Pubkey) : RunResult Unit :=
  if fromOwner ≠ TOKEN_PROGRAM_ID then ⟨some Err.ownershipMismatch, (), []⟩
  else if toOwner ≠ TOKEN_PROGRAM_ID then ⟨some Err.ownershipMismatch, (), []⟩
  else if authorityKey ∉ signers then ⟨some Err.missingSignature, (), []⟩
  else if tokenProgramKey ≠ TOKEN_PROGRAM_ID then ⟨some Err.invalidProgramId, (), []⟩
  else ⟨none, (), [TOKEN_PROGRAM_ID]⟩

/-- `transfer_sol`.  `TransferSol` accounts validation: `from` must be a
`Signer`; `system_program : Program<System>` requires the supplied program's
key to equal the system program's.  The handler performs the system-program
transfer CPI. -/
def cpi_transfer_sol (signers : List Pubkey) (fromKey : Pubkey)
    (systemProgramKey : Pubkey) : RunResult Unit :=
  if fromKey ∉ signers then ⟨some Err.missingSignature, (), []⟩
  else if systemProgramKey ≠ SYSTEM_PROGRAM_ID then ⟨some Err.invalidProgramId, (), []⟩
  else ⟨none, (), [SYSTEM_PROGRAM_ID]⟩

/- ------------------------------------------------------------------
Helper lemmas
------------------------------------------------------------------ -/

theorem U64_MOD_pos : 0 < U64_MOD := by
  unfold U64_MOD
  omega

theorem updateUserCheck_none {signers : List Pubkey} {a : Pubkey} {u : User}
    (hs : a ∈ signers) (ha : u.authority = a) :
    updateUserCheck signers a u = none := by
  unfold updateUserCheck
  simp [hs, ha]

theorem io_add_points_ok {signers : List Pubkey} {a : Pubkey} {u : User}
    {p : Nat} (hs : a ∈ signers) (ha : u.authority = a)
    (h : u.points + p < U64_MOD) :
    io_add_points signers a u p = ⟨none, { u with points := u.points + p }, []⟩ := by
  unfold io_add_points
  rw [updateUserCheck_none hs ha]
  unfold checked_add
  rw [if_pos h]

theorem io_add_points_overflow {signers : List Pubkey} {a : Pubkey} {u : User}
    {p : Nat} (hs : a ∈ signers) (ha : u.authority = a)
    (h : U64_MOD ≤ u.points + p) :
    io_add_points signers a u p = ⟨some Err.overflow, u, []⟩ := by
  unfold io_add_points
  rw [updateUserCheck_none hs ha]
  unfold checked_add
  rw [if_neg (by omega)]

/-- Every `add_points` run either aborts with the account unchanged and no
CPI, or succeeds having added the points. -/
theorem io_add_points_cases (signers : List Pubkey) (a : Pubkey) (u : User)
    (p : Nat) :
    (∃ e, io_add_points signers a u p = ⟨some e, u, []⟩) ∨
    io_add_points signers a u p = ⟨none, { u with points := u.points + p }, []⟩ := by
  unfold io_add_points
  cases updateUserCheck signers a u with
  | some e => exact Or.inl ⟨e, rfl⟩
  | none =>
    unfold checked_add
    by_cases h : u.points + p < U64_MOD
    · rw [if_pos h]
      exact Or.inr rfl
    · rw [if_neg h]
      exact Or.inl ⟨Err.overflow, rfl⟩

/-- Every `remove_points` run either aborts with the account unchanged and no
CPI, or succeeds having subtracted the points. -/
theorem io_remove_points_cases (signers : List Pubkey) (a : Pubkey) (u : User)
    (p : Nat) :
    (∃ e, io_remove_points signers a u p = ⟨some e, u, []⟩) ∨
    io_remove_points signers a u p = ⟨none, { u with points := u.points - p }, []⟩ := by
  unfold io_remove_points
  cases updateUserCheck signers a u with
  | some e => exact Or.inl ⟨e, rfl⟩
  | none =>
    unfold checked_sub
    by_cases h : p ≤ u.points
    · rw [if_pos h]
      exact Or.inr rfl
    · rw [if_neg h]
      exact Or.inl ⟨Err.insufficientPoints, rfl⟩

/-- Every `calculate_tokens` run either aborts with the account unchanged and
no CPI, or succeeds having overwritten `tokens` with `points * multiplier`. -/
theorem io_calculate_tokens_cases (signers : List Pubkey) (a : Pubkey)
    (u : User) (m : Nat) :
    (∃ e, io_calculate_tokens signers a u m = ⟨some e, u, []⟩) ∨
    io_calculate_tokens signers a u m =
      ⟨none, { u with tokens := u.points * m }, []⟩ := by
  unfold io_calculate_tokens
  cases updateUserCheck signers a u with
  | some e => exact Or.inl ⟨e, rfl⟩
  | none =>
    unfold checked_mul
    by_cases h : u.points * m < U64_MOD
    · rw [if_pos h]
      exact Or.inr rfl
    · rw [if_neg h]
      exact Or.inl ⟨Err.overflow, rfl⟩

/-- Every `calculate_average` run either aborts with the account unchanged and
no CPI, or succeeds (divisor nonzero) having overwritten `tokens` with
`points / divisor`. -/
theorem io_calculate_average_cases (signers : List Pubkey) (a : Pubkey)
    (u : User) (d : Nat) :
    (∃ e, io_calculate_average signers a u d = ⟨some e, u, []⟩) ∨
    (d ≠ 0 ∧ io_calculate_average signers a u d =
      ⟨none, { u with tokens := u.points / d }, []⟩) := by
  unfold io_calculate_average
  cases updateUserCheck signers a u with
  | some e => exact Or.inl ⟨e, rfl⟩
  | none =>
    unfold checked_div
    by_cases h : d = 0
    · rw [if_pos h]
      exact Or.inl ⟨Err.divisionByZero, rfl⟩
    · rw [if_neg h]
      exact Or.inr ⟨h, rfl⟩

/-- Every missing-signer `deposit` run either aborts in validation with no CPI
and the vault unchanged, panics after the transfer CPI with the vault fields
unchanged, or succeeds after the transfer CPI having added the amount. -/
theorem ms_deposit_cases (signers : List Pubkey) (k vaultAddr : Pubkey)
    (v : Vault) (amt : Nat) :
    (∃ e, ms_deposit signers k vaultAddr v amt = ⟨some e, v, []⟩) ∨
    ms_deposit signers k vaultAddr v amt =
      ⟨some Err.panicAbort, v, [SYSTEM_PROGRAM_ID]⟩ ∨
    ms_deposit signers k vaultAddr v amt =
      ⟨none, { v with balance := v.balance + amt }, [SYSTEM_PROGRAM_ID]⟩ := by
  unfold ms_deposit
  by_cases h1 : k ∉ signers
  · rw [if_pos h1]
    exact Or.inl ⟨Err.missingSignature, rfl⟩
  · rw [if_neg h1]
    by_cases h2 : vaultAddr ≠ derivePda VAULT_TAG v.authority v.bump
    · rw [if_pos h2]
      exact Or.inl ⟨Err.derivationMismatch, rfl⟩
    · rw [if_neg h2]
      unfold checked_add
      by_cases h3 : v.balance + amt < U64_MOD
      · rw [if_pos h3]
        exact Or.inr (Or.inr rfl)
      · rw [if_neg h3]
        exact Or.inr (Or.inl rfl)

/-- Every missing-signer `withdraw` run either aborts with the vault unchanged
and no CPI, or succeeds after the transfer CPI having subtracted the amount:
the `unwrap` panic branch is unreachable because `vault.balance >= amount` was
checked first. -/
theorem ms_withdraw_cases (signers : List Pubkey) (a vaultAddr : Pubkey)
    (v : Vault) (amt : Nat) :
    (∃ e, ms_withdraw signers a vaultAddr v amt = ⟨some e, v, []⟩) ∨
    ms_withdraw signers a vaultAddr v amt =
      ⟨none, { v with balance := v.balance - amt }, [SYSTEM_PROGRAM_ID]⟩ := by
  unfold ms_withdraw
  by_cases h1 : a ∉ signers
  · rw [if_pos h1]
    exact Or.inl ⟨Err.missingSignature, rfl⟩
  · rw [if_neg h1]
    by_cases h2 : vaultAddr ≠ derivePda VAULT_TAG v.authority v.bump
    · rw [if_pos h2]
      exact Or.inl ⟨Err.derivationMismatch, rfl⟩
    · rw [if_neg h2]
      by_cases h3 : v.authority ≠ a
      · rw [if_pos h3]
        exact Or.inl ⟨Err.unauthorized, rfl⟩
      · rw [if_neg h3]
        by_cases h4 : v.balance < amt
        · rw [if_pos h4]
          exact Or.inl ⟨Err.insufficientFunds, rfl⟩
        · rw [if_neg h4]
          unfold checked_sub
          rw [if_pos (by omega)]
          exact Or.inr rfl

/-- Every PDA `deposit` run either aborts with the vault unchanged, or
succeeds having added the amount; no CPI ever occurs. -/
theorem pda_deposit_cases (signers : List Pubkey) (a vaultAddr : Pubkey)
    (v : Vault) (amt : Nat) :
    (∃ e, pda_deposit signers a vaultAddr v amt = ⟨some e, v, []⟩) ∨
    pda_deposit signers a vaultAddr v amt =
      ⟨none, { v with balance := v.balance + amt }, []⟩ := by
  unfold pda_deposit
  by_cases h1 : a ∉ signers
  · rw [if_pos h1]
    exact Or.inl ⟨Err.missingSignature, rfl⟩
  · rw [if_neg h1]
    by_cases h2 : vaultAddr ≠ derivePda VAULT_TAG a v.bump
    · rw [if_pos h2]
      exact Or.inl ⟨Err.derivationMismatch, rfl⟩
    · rw [if_neg h2]
      unfold checked_add
      by_cases h3 : v.balance + amt < U64_MOD
      · rw [if_pos h3]
        exact Or.inr rfl
      · rw [if_neg h3]
        exact Or.inl ⟨Err.panicAbort, rfl⟩

/-- Every PDA `withdraw` run either aborts with the vault unchanged, or
succeeds having subtracted the amount; no CPI ever occurs. -/
theorem pda_withdraw_cases (signers : List Pubkey) (a vaultAddr : Pubkey)
    (v : Vault) (amt : Nat) :
    (∃ e, pda_withdraw signers a vaultAddr v amt = ⟨some e, v, []⟩) ∨
    pda_withdraw signers a vaultAddr v amt =
      ⟨none, { v with balance := v.balance - amt }, []⟩ := by
  unfold pda_withdraw
  by_cases h1 : a ∉ signers
  · rw [if_pos h1]
    exact Or.inl ⟨Err.missingSignature, rfl⟩
  · rw [if_neg h1]
    by_cases h2 : vaultAddr ≠ derivePda VAULT_TAG a v.bump
    · rw [if_pos h2]
      exact Or.inl ⟨Err.derivationMismatch, rfl⟩
    · rw [if_neg h2]
      unfold checked_sub
      by_cases h3 : amt ≤ v.balance
      · rw [if_pos h3]
        exact Or.inr rfl
      · rw [if_neg h3]
        exact Or.inl ⟨Err.panicAbort, rfl⟩

/-- Reduction of `acc_add_points` once `Account<UserAccount>` extraction
has succeeded. -/
theorem acc_add_points_ok_eq {signers : List Pubkey} {k : Pubkey}
    {raw : RawAccount} {p : Nat} {ua : UserAccount}
    (hx : accountExtract raw = Except.ok ua) :
    acc_add_points signers k raw p =
      if k ∉ signers then ⟨some Err.missingSignature, raw, []⟩
      else if ua.owner ≠ k then ⟨some Err.hasOneMismatch, raw, []⟩
      else match checked_add ua.points p with
        | none => ⟨some Err.panicAbort, raw, []⟩
        | some q => ⟨none, { raw with data := { ua with points := q } }, []⟩ := by
  unfold acc_add_points
  rw [hx]

/-- Reduction of `acc_claim_reward` once extraction has succeeded. -/
theorem acc_claim_reward_ok_eq {signers : List Pubkey} {k : Pubkey}
    {raw : RawAccount} {ua : UserAccount}
    (hx : accountExtract raw = Except.ok ua) :
    acc_claim_reward signers k raw =
      if k ∉ signers then (⟨some Err.missingSignature, raw, []⟩, 0)
      else if ua.owner ≠ k then (⟨some Err.hasOneMismatch, raw, []⟩, 0)
      else (⟨none, raw, []⟩, ua.points / 100) := by
  unfold acc_claim_reward
  rw [hx]

/-- Extraction succeeds exactly on the account's own decoded data, and only
when owner and tag match. -/
theorem accountExtract_ok_iff {raw : RawAccount} {ua : UserAccount} :
    accountExtract raw = Except.ok ua ↔
      raw.owningProgram = ACC_PROGRAM_ID ∧ raw.tag = USER_ACCOUNT_TAG ∧
        ua = raw.data := by
  unfold accountExtract
  constructor
  · intro hx
    split at hx
    · cases hx
    · split at hx
      · cases hx
      · cases hx
        rename_i h1 h2
        exact ⟨not_not.mp h1, not_not.mp h2, rfl⟩
  · rintro ⟨h1, h2, h3⟩
    subst h3
    rw [if_neg (not_not_intro h1), if_neg (not_not_intro h2)]

/-- Every ownership `add_points` run either aborts with the raw account
unchanged, or succeeds having added the points; no CPI ever occurs. -/
theorem acc_add_points_cases (signers : List Pubkey) (k : Pubkey)
    (raw : RawAccount) (p : Nat) :
    (∃ e, acc_add_points signers k raw p = ⟨some e, raw, []⟩) ∨
    acc_add_points signers k raw p =
      ⟨none, { raw with data := { raw.data with points := raw.data.points + p } }, []⟩ := by
  cases hx : accountExtract raw with
  | error e =>
    refine Or.inl ⟨e, ?_⟩
    unfold acc_add_points
    rw [hx]
  | ok ua =>
    have hua : ua = raw.data := (accountExtract_ok_iff.mp hx).2.2
    subst hua
    rw [acc_add_points_ok_eq hx]
    by_cases h3 : k ∉ signers
    · rw [if_pos h3]
      exact Or.inl ⟨Err.missingSignature, rfl⟩
    · rw [if_neg h3]
      by_cases h4 : raw.data.owner ≠ k
      · rw [if_pos h4]
        exact Or.inl ⟨Err.hasOneMismatch, rfl⟩
      · rw [if_neg h4]
        unfold checked_add
        by_cases h5 : raw.data.points + p < U64_MOD
        · rw [if_pos h5]
          exact Or.inr rfl
        · rw [if_neg h5]
          exact Or.inl ⟨Err.panicAbort, rfl⟩

/-- `claim_reward` never mutates the account and never performs a CPI. -/
theorem acc_claim_reward_frame (signers : List Pubkey) (k : Pubkey)
    (raw : RawAccount) :
    (acc_claim_reward signers k raw).1.state = raw ∧
    (acc_claim_reward signers k raw).1.invocations = [] := by
  cases hx : accountExtract raw with
  | error e =>
    have : acc_claim_reward signers k raw = (⟨some e, raw, []⟩, 0) := by
      unfold acc_claim_reward
      rw [hx]
    rw [this]
    exact ⟨rfl, rfl⟩
  | ok ua =>
    rw [acc_claim_reward_ok_eq hx]
    by_cases h3 : k ∉ signers
    · rw [if_pos h3]
      exact ⟨rfl, rfl⟩
    · rw [if_neg h3]
      by_cases h4 : ua.owner ≠ k
      · rw [if_pos h4]
        exact ⟨rfl, rfl⟩
      · rw [if_neg h4]
        exact ⟨rfl, rfl⟩

/-- A run result built with `some e2` reports exactly the error `e2`. -/
theorem run_err_eq {S : Type} {e2 : Err} {s : S} {i : List Pubkey} {e : Err}
    (h : (RunResult.mk (some e2) s i).err = some e) : e2 = e :=
  Option.some.inj h

/-- A successful run result reports no error. -/
theorem run_err_none {S : Type} {s : S} {i : List Pubkey} {e : Err}
    (h : (RunResult.mk none s i).err = some e) : False :=
  Option.noConfusion h

/-- `UpdateUser` validation fails only with its two structured constraint
errors. -/
theorem updateUserCheck_err {signers : List Pubkey} {a : Pubkey} {u : User}
    {e : Err} (hc : updateUserCheck signers a u = some e) :
    e = Err.missingSignature ∨ e = Err.hasOneMismatch := by
  unfold updateUserCheck at hc
  by_cases h1 : a ∉ signers
  · rw [if_pos h1] at hc
    exact Or.inl (Option.some.inj hc).symm
  · rw [if_neg h1] at hc
    by_cases h2 : u.authority ≠ a
    · rw [if_pos h2] at hc
      exact Or.inr (Option.some.inj hc).symm
    · rw [if_neg h2] at hc
      cases hc

/-- `Account<UserAccount>` extraction fails only with its two structured
identity errors. -/
theorem accountExtract_err {raw : RawAccount} {e : Err}
    (hx : accountExtract raw = Except.error e) :
    e = Err.ownershipMismatch ∨ e = Err.typeTagMismatch := by
  unfold accountExtract at hx
  split at hx
  · cases hx
    exact Or.inl rfl
  · split at hx
    · cases hx
      exact Or.inr rfl
    · cases hx

/-- Every `add_points` failure carries a structured error. -/
theorem io_add_points_err {signers : List Pubkey} {a : Pubkey} {u : User}
    {p : Nat} {e : Err} (h : (io_add_points signers a u p).err = some e) :
    e ∈ structuredErrs := by
  unfold io_add_points at h
  cases hc : updateUserCheck signers a u with
  | some e2 =>
    rw [hc] at h
    cases run_err_eq h
    rcases updateUserCheck_err hc with h' | h' <;> subst h' <;> decide
  | none =>
    rw [hc] at h
    cases hm : checked_add u.points p with
    | none =>
      rw [hm] at h
      cases run_err_eq h
      decide
    | some t =>
      rw [hm] at h
      exact (run_err_none h).elim

/-- Every `remove_points` failure carries a structured error. -/
theorem io_remove_points_err {signers : List Pubkey} {a : Pubkey} {u : User}
    {p : Nat} {e : Err} (h : (io_remove_points signers a u p).err = some e) :
    e ∈ structuredErrs := by
  unfold io_remove_points at h
  cases hc : updateUserCheck signers a u with
  | some e2 =>
    rw [hc] at h
    cases run_err_eq h
    rcases updateUserCheck_err hc with h' | h' <;> subst h' <;> decide
  | none =>
    rw [hc] at h
    cases hm : checked_sub u.points p with
    | none =>
      rw [hm] at h
      cases run_err_eq h
      decide
    | some t =>
      rw [hm] at h
      exact (run_err_none h).elim

/-- Every `calculate_tokens` failure carries a structured error. -/
theorem io_calculate_tokens_err {signers : List Pubkey} {a : Pubkey} {u : User}
    {m : Nat} {e : Err} (h : (io_calculate_tokens signers a u m).err = some e) :
    e ∈ structuredErrs := by
  unfold io_calculate_tokens at h
  cases hc : updateUserCheck signers a u with
  | some e2 =>
    rw [hc] at h
    cases run_err_eq h
    rcases updateUserCheck_err hc with h' | h' <;> subst h' <;> decide
  | none =>
    rw [hc] at h
    cases hm : checked_mul u.points m with
    | none =>
      rw [hm] at h
      cases run_err_eq h
      decide
    | some t =>
      rw [hm] at h
      exact (run_err_none h).elim

/-- Every `calculate_average` failure carries a structured error. -/
theorem io_calculate_average_err {signers : List Pubkey} {a : Pubkey} {u : User}
    {d : Nat} {e : Err} (h : (io_calculate_average signers a u d).err = some e) :
    e ∈ structuredErrs := by
  unfold io_calculate_average at h
  cases hc : updateUserCheck signers a u with
  | some e2 =>
    rw [hc] at h
    cases run_err_eq h
    rcases updateUserCheck_err hc with h' | h' <;> subst h' <;> decide
  | none =>
    rw [hc] at h
    cases hm : checked_div u.points d with
    | none =>
      rw [hm] at h
      cases run_err_eq h
      decide
    | some t =>
      rw [hm] at h
      exact (run_err_none h).elim

/-- Every missing-signer `deposit` failure is a structured error, except the
`unwrap` panic, which occurs only after both validation checks passed and the
balance addition overflowed. -/
theorem ms_deposit_err {signers : List Pubkey} {k vaultAddr : Pubkey}
    {v : Vault} {amt : Nat} {e : Err}
    (h : (ms_deposit signers k vaultAddr v amt).err = some e) :
    e ∈ structuredErrs ∨
      (e = Err.panicAbort ∧ k ∈ signers ∧
        vaultAddr = derivePda VAULT_TAG v.authority v.bump ∧
        U64_MOD ≤ v.balance + amt) := by
  unfold ms_deposit at h
  by_cases h1 : k ∉ signers
  · rw [if_pos h1] at h
    cases run_err_eq h
    exact Or.inl (by decide)
  · rw [if_neg h1] at h
    by_cases h2 : vaultAddr ≠ derivePda VAULT_TAG v.authority v.bump
    · rw [if_pos h2] at h
      cases run_err_eq h
      exact Or.inl (by decide)
    · rw [if_neg h2] at h
      cases hm : checked_add v.balance amt with
      | none =>
        rw [hm] at h
        cases run_err_eq h
        refine Or.inr ⟨rfl, not_not.mp h1, not_not.mp h2, ?_⟩
        unfold checked_add at hm
        by_cases h3 : v.balance + amt < U64_MOD
        · rw [if_pos h3] at hm
          cases hm
        · omega
      | some b =>
        rw [hm] at h
        exact (run_err_none h).elim

/-- Every missing-signer `withdraw` failure carries a structured error: its
`unwrap` sits behind the `balance >= amount` check and cannot fire. -/
theorem ms_withdraw_err {signers : List Pubkey} {a vaultAddr : Pubkey}
    {v : Vault} {amt : Nat} {e : Err}
    (h : (ms_withdraw signers a vaultAddr v amt).err = some e) :
    e ∈ structuredErrs := by
  unfold ms_withdraw at h
  by_cases h1 : a ∉ signers
  · rw [if_pos h1] at h
    cases run_err_eq h
    decide
  · rw [if_neg h1] at h
    by_cases h2 : vaultAddr ≠ derivePda VAULT_TAG v.authority v.bump
    · rw [if_pos h2] at h
      cases run_err_eq h
      decide
    · rw [if_neg h2] at h
      by_cases h3 : v.authority ≠ a
      · rw [if_pos h3] at h
        cases run_err_eq h
        decide
      · rw [if_neg h3] at h
        by_cases h4 : v.balance < amt
        · rw [if_pos h4] at h
          cases run_err_eq h
          decide
        · rw [if_neg h4] at h
          unfold checked_sub at h
          rw [if_pos (by omega)] at h
          exact (run_err_none h).elim

/-- Every PDA `deposit` failure is a structured error, except the `unwrap`
panic, which occurs only after validation passed and the addition
overflowed. -/
theorem pda_deposit_err {signers : List Pubkey} {a vaultAddr : Pubkey}
    {v : Vault} {amt : Nat} {e : Err}
    (h : (pda_deposit signers a vaultAddr v amt).err = some e) :
    e ∈ structuredErrs ∨
      (e = Err.panicAbort ∧ a ∈ signers ∧
        vaultAddr = derivePda VAULT_TAG a v.bump ∧
        U64_MOD ≤ v.balance + amt) := by
  unfold pda_deposit at h
  by_cases h1 : a ∉ signers
  · rw [if_pos h1] at h
    cases run_err_eq h
    exact Or.inl (by decide)
  · rw [if_neg h1] at h
    by_cases h2 : vaultAddr ≠ derivePda VAULT_TAG a v.bump
    · rw [if_pos h2] at h
      cases run_err_eq h
      exact Or.inl (by decide)
    · rw [if_neg h2] at h
      cases hm : checked_add v.balance amt with
      | none =>
        rw [hm] at h
        cases run_err_eq h
        refine Or.inr ⟨rfl, not_not.mp h1, not_not.mp h2, ?_⟩
        unfold checked_add at hm
        by_cases h3 : v.balance + amt < U64_MOD
        · rw [if_pos h3] at hm
          cases hm
        · omega
      | some b =>
        rw [hm] at h
        exact (run_err_none h).elim

/-- Every PDA `withdraw` failure is a structured error, except the `unwrap`
panic, which occurs only after validation passed on a balance smaller than
the amount. -/
theorem pda_withdraw_err {signers : List Pubkey} {a vaultAddr : Pubkey}
    {v : Vault} {amt : Nat} {e : Err}
    (h : (pda_withdraw signers a vaultAddr v amt).err = some e) :
    e ∈ structuredErrs ∨
      (e = Err.panicAbort ∧ a ∈ signers ∧
        vaultAddr = derivePda VAULT_TAG a v.bump ∧ v.balance < amt) := by
  unfold pda_withdraw at h
  by_cases h1 : a ∉ signers
  · rw [if_pos h1] at h
    cases run_err_eq h
    exact Or.inl (by decide)
  · rw [if_neg h1] at h
    by_cases h2 : vaultAddr ≠ derivePda VAULT_TAG a v.bump
    · rw [if_pos h2] at h
      cases run_err_eq h
      exact Or.inl (by decide)
    · rw [if_neg h2] at h
      cases hm : checked_sub v.balance amt with
      | none =>
        rw [hm] at h
        cases run_err_eq h
        refine Or.inr ⟨rfl, not_not.mp h1, not_not.mp h2, ?_⟩
        unfold checked_sub at hm
        by_cases h3 : amt ≤ v.balance
        · rw [if_pos h3] at hm
          cases hm
        · omega
      | some b =>
        rw [hm] at h
        exact (run_err_none h).elim

/-- Every ownership `add_points` failure is a structured error, except the
`unwrap` panic, which occurs only after every verifier passed and the points
addition overflowed. -/
theorem acc_add_points_err {signers : List Pubkey} {k : Pubkey}
    {raw : RawAccount} {p : Nat} {e : Err}
    (h : (acc_add_points signers k raw p).err = some e) :
    e ∈ structuredErrs ∨
      (e = Err.panicAbort ∧ raw.owningProgram = ACC_PROGRAM_ID ∧
        raw.tag = USER_ACCOUNT_TAG ∧ k ∈ signers ∧ raw.data.owner = k ∧
        U64_MOD ≤ raw.data.points + p) := by
  cases hx : accountExtract raw with
  | error e2 =>
    have hh : acc_add_points signers k raw p = ⟨some e2, raw, []⟩ := by
      unfold acc_add_points
      rw [hx]
    rw [hh] at h
    cases run_err_eq h
    rcases accountExtract_err hx with h' | h' <;> subst h' <;>
      exact Or.inl (by decide)
  | ok ua =>
    obtain ⟨ho, ht, hua⟩ := accountExtract_ok_iff.mp hx
    subst hua
    rw [acc_add_points_ok_eq hx] at h
    by_cases h3 : k ∉ signers
    · rw [if_pos h3] at h
      cases run_err_eq h
      exact Or.inl (by decide)
    · rw [if_neg h3] at h
      by_cases h4 : raw.data.owner ≠ k
      · rw [if_pos h4] at h
        cases run_err_eq h
        exact Or.inl (by decide)
      · rw [if_neg h4] at h
        cases hm : checked_add raw.data.points p with
        | none =>
          rw [hm] at h
          cases run_err_eq h
          refine Or.inr ⟨rfl, ho, ht, not_not.mp h3, not_not.mp h4, ?_⟩
          unfold checked_add at hm
          by_cases h5 : raw.data.points + p < U64_MOD
          · rw [if_pos h5] at hm
            cases hm
          · omega
        | some q =>
          rw [hm] at h
          exact (run_err_none h).elim

/-- Every `claim_reward` failure carries a structured error. -/
theorem acc_claim_reward_err {signers : List Pubkey} {k : Pubkey}
    {raw : RawAccount} {e : Err}
    (h : (acc_claim_reward signers k raw).1.err = some e) :
    e ∈ structuredErrs := by
  cases hx : accountExtract raw with
  | error e2 =>
    have hh : acc_claim_reward signers k raw = (⟨some e2, raw, []⟩, 0) := by
      unfold acc_claim_reward
      rw [hx]
    rw [hh] at h
    cases run_err_eq h
    rcases accountExtract_err hx with h' | h' <;> subst h' <;> decide
  | ok ua =>
    rw [acc_claim_reward_ok_eq hx] at h
    by_cases h3 : k ∉ signers
    · rw [if_pos h3] at h
      cases run_err_eq h
      decide
    · rw [if_neg h3] at h
      by_cases h4 : ua.owner ≠ k
      · rw [if_pos h4] at h
        cases run_err_eq h
        decide
      · rw [if_neg h4] at h
        exact (run_err_none h).elim

/-- Every `call_whitelisted_program` failure carries a structured error. -/
theorem cpi_call_whitelisted_err {signers : List Pubkey} {a t : Pubkey}
    {e : Err} (h : (cpi_call_whitelisted signers a t).err = some e) :
    e ∈ structuredErrs := by
  unfold cpi_call_whitelisted at h
  by_cases h1 : a ∉ signers
  · rw [if_pos h1] at h
    cases run_err_eq h
    decide
  · rw [if_neg h1] at h
    by_cases h2 : t ∈ ALLOWED_PROGRAMS
    · rw [if_pos h2] at h
      exact (run_err_none h).elim
    · rw [if_neg h2] at h
      cases run_err_eq h
      decide

/-- Every `execute_token_transfer` failure carries a structured error. -/
theorem cpi_execute_transfer_err {signers : List Pubkey}
    {fo t2 a tp : Pubkey} {e : Err}
    (h : (cpi_execute_transfer signers fo t2 a tp).err = some e) :
    e ∈ structuredErrs := by
  unfold cpi_execute_transfer at h
  by_cases h1 : fo ≠ TOKEN_PROGRAM_ID
  · rw [if_pos h1] at h
    cases run_err_eq h
    decide
  · rw [if_neg h1] at h
    by_cases h2 : t2 ≠ TOKEN_PROGRAM_ID
    · rw [if_pos h2] at h
      cases run_err_eq h
      decide
    · rw [if_neg h2] at h
      by_cases h3 : a ∉ signers
      · rw [if_pos h3] at h
        cases run_err_eq h
        decide
      · rw [if_neg h3] at h
        by_cases h4 : tp ≠ TOKEN_PROGRAM_ID
        · rw [if_pos h4] at h
          cases run_err_eq h
          decide
        · rw [if_neg h4] at h
          exact (run_err_none h).elim

/-- Every `transfer_sol` failure carries a structured error. -/
theorem cpi_transfer_sol_err {signers : List Pubkey} {f sp : Pubkey} {e : Err}
    (h : (cpi_transfer_sol signers f sp).err = some e) :
    e ∈ structuredErrs := by
  unfold cpi_transfer_sol at h
  by_cases h1 : f ∉ signers
  · rw [if_pos h1] at h
    cases run_err_eq h
    decide
  · rw [if_neg h1] at h
    by_cases h2 : sp ≠ SYSTEM_PROGRAM_ID
    · rw [if_pos h2] at h
      cases run_err_eq h
      decide
    · rw [if_neg h2] at h
      exact (run_err_none h).elim

/- ------------------------------------------------------------------
Claim theorems
------------------------------------------------------------------ -/

/-- C2: with a valid `UpdateUser` context (authority signed, `has_one`
satisfied), initialization yields `points = 0`; `add_points (u64::MAX)` then
succeeds with `points = u64::MAX`; a further `add_points 1` fails with
`ErrorCode::Overflow` leaving `points = u64::MAX` (no wrap to 0); and in
general whenever current points `p` plus argument `q` exceed `u64::MAX`,
`add_points` fails with `Overflow` and leaves the account unchanged. -/
theorem c2_add_points_overflow_safe (signers : List Pubkey) (a : Pubkey)
    (hs : a ∈ signers) :
    (∀ u0 : User, io_init signers a = Except.ok u0 →
      u0.points = 0 ∧
      (io_add_points signers a u0 (U64_MOD - 1)).err = none ∧
      (io_add_points signers a u0 (U64_MOD - 1)).state.points = U64_MOD - 1 ∧
      (io_add_points signers a
        (io_add_points signers a u0 (U64_MOD - 1)).state 1).err = some Err.overflow ∧
      (io_add_points signers a
        (io_add_points signers a u0 (U64_MOD - 1)).state 1).state.points = U64_MOD - 1) ∧
    (∀ (u : User) (q : Nat), u.authority = a → U64_MOD ≤ u.points + q →
      (io_add_points signers a u q).err = some Err.overflow ∧
      (io_add_points signers a u q).state = u) := by
  have hpos := U64_MOD_pos
  constructor
  · intro u0 h0
    unfold io_init at h0
    rw [if_pos hs] at h0
    cases h0
    have hpts : ({ authority := a, points := 0, tokens := 0 } : User).points = 0 := rfl
    have hrun := io_add_points_ok (u := { authority := a, points := 0, tokens := 0 })
      (p := U64_MOD - 1) hs rfl (by rw [hpts]; omega)
    rw [hpts] at hrun
    have hzero : 0 + (U64_MOD - 1) = U64_MOD - 1 := by omega
    rw [hzero] at hrun
    rw [hrun]
    have hpts2 : ({ authority := a, points := U64_MOD - 1, tokens := 0 } : User).points
        = U64_MOD - 1 := rfl
    have hrun2 := io_add_points_overflow
      (u := { authority := a, points := U64_MOD - 1, tokens := 0 })
      (p := 1) hs rfl (by rw [hpts2]; omega)
    rw [hrun2]
    exact ⟨rfl, rfl, rfl, rfl, rfl⟩
  · intro u q ha hq
    rw [io_add_points_overflow hs ha hq]
    exact ⟨rfl, rfl⟩

/-- Witness for C2 at `a = 4`, `signers = [4]`: the freshly initialized user
overflows exactly as stated. -/
theorem c2_add_points_overflow_safe_witness :
    (4 : Pubkey) ∈ [(4 : Pubkey)] ∧
    io_init [4] 4 = Except.ok { authority := 4, points := 0, tokens := 0 } ∧
    ({ authority := 4, points := 0, tokens := 0 } : User).points = 0 ∧
    (io_add_points [4] 4 { authority := 4, points := 0, tokens := 0 }
      (U64_MOD - 1)).err = none ∧
    (io_add_points [4] 4 { authority := 4, points := 0, tokens := 0 }
      (U64_MOD - 1)).state.points = U64_MOD - 1 ∧
    (io_add_points [4] 4
      (io_add_points [4] 4 { authority := 4, points := 0, tokens := 0 }
        (U64_MOD - 1)).state 1).err = some Err.overflow ∧
    (io_add_points [4] 4
      (io_add_points [4] 4 { authority := 4, points := 0, tokens := 0 }
        (U64_MOD - 1)).state 1).state.points = U64_MOD - 1 := by
  refine ⟨by decide, by rfl, ?_⟩
  exact (c2_add_points_overflow_safe [4] 4 (by decide)).1
    { authority := 4, points := 0, tokens := 0 } (by rfl)

/-- C8: with a valid `UpdateUser` context, `remove_points` fails with
`ErrorCode::InsufficientPoints` (the spec's `UnderflowError`) leaving the
account unchanged whenever the argument exceeds the current points, and
otherwise succeeds setting points to exactly the difference. -/
theorem c8_remove_points_exact (signers : List Pubkey) (a : Pubkey)
    (u : User) (b : Nat) (hs : a ∈ signers) (ha : u.authority = a) :
    (u.points < b →
      (io_remove_points signers a u b).err = some Err.insufficientPoints ∧
      (io_remove_points signers a u b).state = u) ∧
    (b ≤ u.points →
      (io_remove_points signers a u b).err = none ∧
      (io_remove_points signers a u b).state =
        { u with points := u.points - b }) := by
  constructor
  · intro hlt
    unfold io_remove_points
    rw [updateUserCheck_none hs ha]
    unfold checked_sub
    rw [if_neg (by omega)]
    exact ⟨rfl, rfl⟩
  · intro hle
    unfold io_remove_points
    rw [updateUserCheck_none hs ha]
    unfold checked_sub
    rw [if_pos hle]
    exact ⟨rfl, rfl⟩

/-- Witness for C8 at points 5, argument 3 (success) — hypotheses discharged
at `a = 4`, `signers = [4]`. -/
theorem c8_remove_points_exact_witness :
    (3 : Nat) ≤ 5 ∧
    (io_remove_points [4] 4 { authority := 4, points := 5, tokens := 0 } 3).err = none ∧
    (io_remove_points [4] 4 { authority := 4, points := 5, tokens := 0 } 3).state =
      { authority := 4, points := 2, tokens := 0 } :=
  ⟨by decide,
   (c8_remove_points_exact [4] 4 { authority := 4, points := 5, tokens := 0 } 3
     (by decide) (by decide)).2 (by decide)⟩

/-- C9: with a valid `UpdateUser` context, `calculate_average` with divisor 0
fails with `ErrorCode::DivisionByZero` leaving the account (in particular
`tokens`) unchanged, and with any divisor `b ≠ 0` succeeds setting `tokens`
to the floor quotient `points / b`. -/
theorem c9_calculate_average_div (signers : List Pubkey) (a : Pubkey)
    (u : User) (b : Nat) (hs : a ∈ signers) (ha : u.authority = a) :
    (b = 0 →
      (io_calculate_average signers a u b).err = some Err.divisionByZero ∧
      (io_calculate_average signers a u b).state = u) ∧
    (b ≠ 0 →
      (io_calculate_average signers a u b).err = none ∧
      (io_calculate_average signers a u b).state =
        { u with tokens := u.points / b }) := by
  constructor
  · intro hb
    unfold io_calculate_average
    rw [updateUserCheck_none hs ha]
    unfold checked_div
    rw [if_pos hb]
    exact ⟨rfl, rfl⟩
  · intro hb
    unfold io_calculate_average
    rw [updateUserCheck_none hs ha]
    unfold checked_div
    rw [if_neg hb]
    exact ⟨rfl, rfl⟩

/-- Witness for C9: divisor 0 fails at points 10; hypotheses discharged at
`a = 4`, `signers = [4]`. -/
theorem c9_calculate_average_div_witness :
    (0 : Nat) = 0 ∧
    (io_calculate_average [4] 4 { authority := 4, points := 10, tokens := 7 } 0).err =
      some Err.divisionByZero ∧
    (io_calculate_average [4] 4 { authority := 4, points := 10, tokens := 7 } 0).state =
      { authority := 4, points := 10, tokens := 7 } :=
  ⟨rfl,
   (c9_calculate_average_div [4] 4 { authority := 4, points := 10, tokens := 7 } 0
     (by decide) (by decide)).1 rfl⟩

/-- C10: `calculate_tokens` and `calculate_average` write only the `tokens`
field — `authority` and `points` are unchanged by every successful or failing
call — and on success each overwrites `tokens` with a value computed solely
from the current points and the argument (`points * multiplier`, resp.
`points / divisor`), discarding the previous `tokens` value. -/
theorem c10_tokens_frame (signers : List Pubkey) (a : Pubkey) (u : User)
    (m d : Nat) :
    ((io_calculate_tokens signers a u m).state.authority = u.authority) ∧
    ((io_calculate_tokens signers a u m).state.points = u.points) ∧
    ((io_calculate_tokens signers a u m).err = none →
      (io_calculate_tokens signers a u m).state.tokens = u.points * m) ∧
    ((io_calculate_average signers a u d).state.authority = u.authority) ∧
    ((io_calculate_average signers a u d).state.points = u.points) ∧
    ((io_calculate_average signers a u d).err = none →
      (io_calculate_average signers a u d).state.tokens = u.points / d) := by
  have ht := io_calculate_tokens_cases signers a u m
  have hd := io_calculate_average_cases signers a u d
  refine ⟨?_, ?_, ?_, ?_, ?_, ?_⟩
  · rcases ht with ⟨e, he⟩ | hok
    · rw [he]
    · rw [hok]
  · rcases ht with ⟨e, he⟩ | hok
    · rw [he]
    · rw [hok]
  · rcases ht with ⟨e, he⟩ | hok
    · intro h
      rw [he] at h
      simp at h
    · intro _
      rw [hok]
  · rcases hd with ⟨e, he⟩ | ⟨_, hok⟩
    · rw [he]
    · rw [hok]
  · rcases hd with ⟨e, he⟩ | ⟨_, hok⟩
    · rw [he]
    · rw [hok]
  · rcases hd with ⟨e, he⟩ | ⟨_, hok⟩
    · intro h
      rw [he] at h
      simp at h
    · intro _
      rw [hok]

/-- Witness for C10 at a concrete successful `calculate_tokens` run. -/
theorem c10_tokens_frame_witness :
    (io_calculate_tokens [4] 4 { authority := 4, points := 10, tokens := 5 } 4).state.points
      = 10 ∧
    ((io_calculate_tokens [4] 4 { authority := 4, points := 10, tokens := 5 } 4).err = none ∧
     (io_calculate_tokens [4] 4 { authority := 4, points := 10, tokens := 5 } 4).state.tokens
       = 10 * 4) :=
  ⟨(c10_tokens_frame [4] 4 { authority := 4, points := 10, tokens := 5 } 4 0).2.1,
   by decide,
   (c10_tokens_frame [4] 4 { authority := 4, points := 10, tokens := 5 } 4 0).2.2.1
     (by decide)⟩

/-- C3: in the hardened missing-signer program, any `withdraw` whose claimed
authority is not among the principals that signed the call fails with the
missing-signature error, with the vault (in particular its balance) unchanged
and no transfer CPI performed — for every vault state, so in particular even
when `vault.authority` equals the claimed authority. -/
theorem c3_withdraw_missing_signature (signers : List Pubkey)
    (a vaultAddr : Pubkey) (v : Vault) (amt : Nat) (h : a ∉ signers) :
    (ms_withdraw signers a vaultAddr v amt).err = some Err.missingSignature ∧
    (ms_withdraw signers a vaultAddr v amt).state = v ∧
    (ms_withdraw signers a vaultAddr v amt).invocations = [] := by
  unfold ms_withdraw
  rw [if_pos h]
  exact ⟨rfl, rfl, rfl⟩

/-- Witness for C3: vault of balance 100 under authority 4 at its canonical
address, `withdraw 50` claiming authority 4 but signed only by 6 — fails with
`missingSignature` and the balance stays 100. -/
theorem c3_withdraw_missing_signature_witness :
    (4 : Pubkey) ∉ [(6 : Pubkey)] ∧
    ((ms_withdraw [6] 4 (derivePda VAULT_TAG 4 9)
        { authority := 4, balance := 100, bump := 9 } 50).err =
      some Err.missingSignature ∧
     (ms_withdraw [6] 4 (derivePda VAULT_TAG 4 9)
        { authority := 4, balance := 100, bump := 9 } 50).state =
      { authority := 4, balance := 100, bump := 9 } ∧
     (ms_withdraw [6] 4 (derivePda VAULT_TAG 4 9)
        { authority := 4, balance := 100, bump := 9 } 50).invocations = []) :=
  ⟨by decide,
   c3_withdraw_missing_signature [6] 4 (derivePda VAULT_TAG 4 9)
     { authority := 4, balance := 100, bump := 9 } 50 (by decide)⟩

/-- C4: in the hardened PDA program, `withdraw` with a signing authority
succeeds only when the supplied vault account's address equals the address
recomputed from the domain tag `b"vault"`, the authority's key and the bump
STORED on the account; any address differing from that canonical derivation is
rejected with `derivationMismatch` and the vault is unchanged — for every
vault state, hence even when `vault.authority` equals the caller. -/
theorem c4_pda_derivation_enforced (signers : List Pubkey)
    (a vaultAddr : Pubkey) (v : Vault) (amt : Nat) (hs : a ∈ signers) :
    (vaultAddr ≠ derivePda VAULT_TAG a v.bump →
      (pda_withdraw signers a vaultAddr v amt).err = some Err.derivationMismatch ∧
      (pda_withdraw signers a vaultAddr v amt).state = v) ∧
    ((pda_withdraw signers a vaultAddr v amt).err = none →
      vaultAddr = derivePda VAULT_TAG a v.bump) := by
  constructor
  · intro hne
    unfold pda_withdraw
    rw [if_neg (not_not_intro hs), if_pos hne]
    exact ⟨rfl, rfl⟩
  · intro hok
    by_contra hne
    unfold pda_withdraw at hok
    rw [if_neg (not_not_intro hs), if_pos hne] at hok
    simp at hok

/-- Witness for C4: an account at address 12345 with the caller as its stored
authority is still rejected, balance untouched. -/
theorem c4_pda_derivation_enforced_witness :
    (4 : Pubkey) ∈ [(4 : Pubkey)] ∧
    (12345 : Pubkey) ≠ derivePda VAULT_TAG 4 9 ∧
    ((pda_withdraw [4] 4 12345 { authority := 4, balance := 100, bump := 9 } 50).err =
      some Err.derivationMismatch ∧
     (pda_withdraw [4] 4 12345 { authority := 4, balance := 100, bump := 9 } 50).state =
      { authority := 4, balance := 100, bump := 9 }) :=
  ⟨by decide, by decide,
   (c4_pda_derivation_enforced [4] 4 12345
     { authority := 4, balance := 100, bump := 9 } 50 (by decide)).1 (by decide)⟩

/-- C5: `call_whitelisted_program` fails with `UnauthorizedProgram` for every
target outside `ALLOWED_PROGRAMS` (given a signing authority), attempts no
sub-invocation on any path, and accepts a target only if it is a member of
the allow-list (fail-closed). -/
theorem c5_whitelist_fail_closed (signers : List Pubkey) (a t : Pubkey) :
    (a ∈ signers → t ∉ ALLOWED_PROGRAMS →
      (cpi_call_whitelisted signers a t).err = some Err.unauthorizedProgram) ∧
    (t ∉ ALLOWED_PROGRAMS → (cpi_call_whitelisted signers a t).err ≠ none) ∧
    ((cpi_call_whitelisted signers a t).invocations = []) ∧
    ((cpi_call_whitelisted signers a t).err = none → t ∈ ALLOWED_PROGRAMS) := by
  unfold cpi_call_whitelisted
  by_cases h1 : a ∉ signers
  · rw [if_pos h1]
    exact ⟨fun hs _ => absurd hs h1, fun _ => by simp, rfl, fun h => by simp at h⟩
  · rw [if_neg h1]
    by_cases h2 : t ∈ ALLOWED_PROGRAMS
    · rw [if_pos h2]
      exact ⟨fun _ hn => absurd h2 hn, fun hn => absurd h2 hn, rfl, fun _ => h2⟩
    · rw [if_neg h2]
      exact ⟨fun _ _ => rfl, fun _ => by simp, rfl, fun h => by simp at h⟩

/-- Witness for C5: target 99 is not whitelisted and is rejected with
`unauthorizedProgram`. -/
theorem c5_whitelist_fail_closed_witness :
    (4 : Pubkey) ∈ [(4 : Pubkey)] ∧
    (99 : Pubkey) ∉ ALLOWED_PROGRAMS ∧
    (cpi_call_whitelisted [4] 4 99).err = some Err.unauthorizedProgram :=
  ⟨by decide, by decide,
   (c5_whitelist_fail_closed [4] 4 99).1 (by decide) (by decide)⟩

/-- C6: in the hardened ownership program, for any supplied account whose
stored owning program differs from this program's identity — whatever its
other fields hold — both `add_points` and `claim_reward` fail with
`ownershipMismatch` and leave the account bytes unchanged; with the right
owner but a wrong leading discriminator they fail with `typeTagMismatch`,
likewise before any typed field is used. -/
theorem c6_ownership_checked_first (signers : List Pubkey) (k : Pubkey)
    (raw : RawAccount) (p : Nat) :
    (raw.owningProgram ≠ ACC_PROGRAM_ID →
      (acc_add_points signers k raw p).err = some Err.ownershipMismatch ∧
      (acc_add_points signers k raw p).state = raw ∧
      (acc_claim_reward signers k raw).1.err = some Err.ownershipMismatch ∧
      (acc_claim_reward signers k raw).1.state = raw) ∧
    (raw.owningProgram = ACC_PROGRAM_ID → raw.tag ≠ USER_ACCOUNT_TAG →
      (acc_add_points signers k raw p).err = some Err.typeTagMismatch ∧
      (acc_add_points signers k raw p).state = raw ∧
      (acc_claim_reward signers k raw).1.err = some Err.typeTagMismatch ∧
      (acc_claim_reward signers k raw).1.state = raw) := by
  have hrun : ∀ e, accountExtract raw = Except.error e →
      acc_add_points signers k raw p = ⟨some e, raw, []⟩ ∧
      acc_claim_reward signers k raw = (⟨some e, raw, []⟩, 0) := by
    intro e he
    constructor
    · unfold acc_add_points
      rw [he]
    · unfold acc_claim_reward
      rw [he]
  constructor
  · intro h
    have hext : accountExtract raw = Except.error Err.ownershipMismatch := by
      unfold accountExtract
      rw [if_pos h]
    obtain ⟨ha, hc⟩ := hrun _ hext
    rw [ha, hc]
    exact ⟨rfl, rfl, rfl, rfl⟩
  · intro h1 h2
    have hext : accountExtract raw = Except.error Err.typeTagMismatch := by
      unfold accountExtract
      rw [if_neg (not_not_intro h1), if_pos h2]
    obtain ⟨ha, hc⟩ := hrun _ hext
    rw [ha, hc]
    exact ⟨rfl, rfl, rfl, rfl⟩

/-- Witness for C6: an account owned by program 99 (fields otherwise valid)
is rejected with `ownershipMismatch` and left unchanged. -/
theorem c6_ownership_checked_first_witness :
    (99 : Pubkey) ≠ ACC_PROGRAM_ID ∧
    ((acc_add_points [4] 4
        { owningProgram := 99, tag := USER_ACCOUNT_TAG,
          data := { owner := 4, balance := 7, points := 8 } } 5).err =
      some Err.ownershipMismatch ∧
     (acc_add_points [4] 4
        { owningProgram := 99, tag := USER_ACCOUNT_TAG,
          data := { owner := 4, balance := 7, points := 8 } } 5).state =
      { owningProgram := 99, tag := USER_ACCOUNT_TAG,
        data := { owner := 4, balance := 7, points := 8 } } ∧
     (acc_claim_reward [4] 4
        { owningProgram := 99, tag := USER_ACCOUNT_TAG,
          data := { owner := 4, balance := 7, points := 8 } }).1.err =
      some Err.ownershipMismatch ∧
     (acc_claim_reward [4] 4
        { owningProgram := 99, tag := USER_ACCOUNT_TAG,
          data := { owner := 4, balance := 7, points := 8 } }).1.state =
      { owningProgram := 99, tag := USER_ACCOUNT_TAG,
        data := { owner := 4, balance := 7, points := 8 } }) :=
  ⟨by decide,
   (c6_ownership_checked_first [4] 4
     { owningProgram := 99, tag := USER_ACCOUNT_TAG,
       data := { owner := 4, balance := 7, points := 8 } } 5).1 (by decide)⟩

/-- C1 counterexample: in the hardened missing-signer program's `deposit`,
the transfer sub-invocation precedes the checked addition, so on a vault
already holding `u64::MAX` lamports a `deposit 1` run fails (the
`checked_add(...).unwrap()` aborts) yet HAS performed a sub-invocation —
refuting "no sub-invocation is performed" on every failing run. -/
theorem c1_deposit_invokes_before_abort :
    (ms_deposit [5] 5 (derivePda VAULT_TAG 7 9)
      { authority := 7, balance := U64_MOD - 1, bump := 9 } 1).err ≠ none ∧
    (ms_deposit [5] 5 (derivePda VAULT_TAG 7 9)
      { authority := 7, balance := U64_MOD - 1, bump := 9 } 1).invocations ≠ [] := by
  constructor
  · decide
  · decide

/-- C1 amended: every failing run of every modelled operation leaves the
persisted account fields exactly as they were, and — except for the
missing-signer `deposit`, whose transfer sub-invocation precedes its checked
addition — performs no sub-invocation. -/
theorem c1_no_effect_on_abort :
    (∀ signers a u p, (io_add_points signers a u p).err ≠ none →
      (io_add_points signers a u p).state = u ∧
      (io_add_points signers a u p).invocations = []) ∧
    (∀ signers a u p, (io_remove_points signers a u p).err ≠ none →
      (io_remove_points signers a u p).state = u ∧
      (io_remove_points signers a u p).invocations = []) ∧
    (∀ signers a u m, (io_calculate_tokens signers a u m).err ≠ none →
      (io_calculate_tokens signers a u m).state = u ∧
      (io_calculate_tokens signers a u m).invocations = []) ∧
    (∀ signers a u d, (io_calculate_average signers a u d).err ≠ none →
      (io_calculate_average signers a u d).state = u ∧
      (io_calculate_average signers a u d).invocations = []) ∧
    (∀ signers a vaultAddr v amt, (ms_withdraw signers a vaultAddr v amt).err ≠ none →
      (ms_withdraw signers a vaultAddr v amt).state = v ∧
      (ms_withdraw signers a vaultAddr v amt).invocations = []) ∧
    (∀ signers k vaultAddr v amt, (ms_deposit signers k vaultAddr v amt).err ≠ none →
      (ms_deposit signers k vaultAddr v amt).state = v) ∧
    (∀ signers a vaultAddr v amt, (pda_deposit signers a vaultAddr v amt).err ≠ none →
      (pda_deposit signers a vaultAddr v amt).state = v ∧
      (pda_deposit signers a vaultAddr v amt).invocations = []) ∧
    (∀ signers a vaultAddr v amt, (pda_withdraw signers a vaultAddr v amt).err ≠ none →
      (pda_withdraw signers a vaultAddr v amt).state = v ∧
      (pda_withdraw signers a vaultAddr v amt).invocations = []) ∧
    (∀ signers k raw p, (acc_add_points signers k raw p).err ≠ none →
      (acc_add_points signers k raw p).state = raw ∧
      (acc_add_points signers k raw p).invocations = []) ∧
    (∀ signers k raw, (acc_claim_reward signers k raw).1.state = raw ∧
      (acc_claim_reward signers k raw).1.invocations = []) ∧
    (∀ signers a t, (cpi_call_whitelisted signers a t).invocations = []) ∧
    (∀ signers fo t2 a tp, (cpi_execute_transfer signers fo t2 a tp).err ≠ none →
      (cpi_execute_transfer signers fo t2 a tp).invocations = []) ∧
    (∀ signers f sp, (cpi_transfer_sol signers f sp).err ≠ none →
      (cpi_transfer_sol signers f sp).invocations = []) := by
  refine ⟨?_, ?_, ?_, ?_, ?_, ?_, ?_, ?_, ?_, ?_, ?_, ?_, ?_⟩
  · intro signers a u p h
    rcases io_add_points_cases signers a u p with ⟨e, he⟩ | hok
    · rw [he]
      exact ⟨rfl, rfl⟩
    · rw [hok] at h
      simp at h
  · intro signers a u p h
    rcases io_remove_points_cases signers a u p with ⟨e, he⟩ | hok
    · rw [he]
      exact ⟨rfl, rfl⟩
    · rw [hok] at h
      simp at h
  · intro signers a u m h
    rcases io_calculate_tokens_cases signers a u m with ⟨e, he⟩ | hok
    · rw [he]
      exact ⟨rfl, rfl⟩
    · rw [hok] at h
      simp at h
  · intro signers a u d h
    rcases io_calculate_average_cases signers a u d with ⟨e, he⟩ | ⟨_, hok⟩
    · rw [he]
      exact ⟨rfl, rfl⟩
    · rw [hok] at h
      simp at h
  · intro signers a vaultAddr v amt h
    rcases ms_withdraw_cases signers a vaultAddr v amt with ⟨e, he⟩ | hok
    · rw [he]
      exact ⟨rfl, rfl⟩
    · rw [hok] at h
      simp at h
  · intro signers k vaultAddr v amt h
    rcases ms_deposit_cases signers k vaultAddr v amt with ⟨e, he⟩ | he | hok
    · rw [he]
    · rw [he]
    · rw [hok] at h
      simp at h
  · intro signers a vaultAddr v amt h
    rcases pda_deposit_cases signers a vaultAddr v amt with ⟨e, he⟩ | hok
    · rw [he]
      exact ⟨rfl, rfl⟩
    · rw [hok] at h
      simp at h
  · intro signers a vaultAddr v amt h
    rcases pda_withdraw_cases signers a vaultAddr v amt with ⟨e, he⟩ | hok
    · rw [he]
      exact ⟨rfl, rfl⟩
    · rw [hok] at h
      simp at h
  · intro signers k raw p h
    rcases acc_add_points_cases signers k raw p with ⟨e, he⟩ | hok
    · rw [he]
      exact ⟨rfl, rfl⟩
    · rw [hok] at h
      simp at h
  · intro signers k raw
    exact acc_claim_reward_frame signers k raw
  · intro signers a t
    unfold cpi_call_whitelisted
    by_cases h1 : a ∉ signers
    · rw [if_pos h1]
    · rw [if_neg h1]
      by_cases h2 : t ∈ ALLOWED_PROGRAMS
      · rw [if_pos h2]
      · rw [if_neg h2]
  · intro signers fo t2 a tp h
    unfold cpi_execute_transfer at h ⊢
    by_cases h1 : fo ≠ TOKEN_PROGRAM_ID
    · rw [if_pos h1]
    · rw [if_neg h1] at h ⊢
      by_cases h2 : t2 ≠ TOKEN_PROGRAM_ID
      · rw [if_pos h2]
      · rw [if_neg h2] at h ⊢
        by_cases h3 : a ∉ signers
        · rw [if_pos h3]
        · rw [if_neg h3] at h ⊢
          by_cases h4 : tp ≠ TOKEN_PROGRAM_ID
          · rw [if_pos h4]
          · rw [if_neg h4] at h
            simp at h
  · intro signers f sp h
    unfold cpi_transfer_sol at h ⊢
    by_cases h1 : f ∉ signers
    · rw [if_pos h1]
    · rw [if_neg h1] at h ⊢
      by_cases h2 : sp ≠ SYSTEM_PROGRAM_ID
      · rw [if_pos h2]
      · rw [if_neg h2] at h
        simp at h

/-- Witness for C1 (amended): a concrete unsigned `add_points` call fails and
leaves the account and invocation list untouched. -/
theorem c1_no_effect_on_abort_witness :
    (io_add_points [] 4 { authority := 4, points := 0, tokens := 0 } 1).err ≠ none ∧
    ((io_add_points [] 4 { authority := 4, points := 0, tokens := 0 } 1).state =
      { authority := 4, points := 0, tokens := 0 } ∧
     (io_add_points [] 4 { authority := 4, points := 0, tokens := 0 } 1).invocations = []) :=
  ⟨by decide,
   c1_no_effect_on_abort.1 [] 4 { authority := 4, points := 0, tokens := 0 } 1
     (by decide)⟩

/-- C7 counterexample: the hardened ownership program's `add_points` uses
`checked_add(...).unwrap()`, so on overflow — with every verifier passing —
the run aborts with a raw panic, which is none of the structured error codes
of the repository's error taxonomy. -/
theorem c7_unwrap_panic_not_typed :
    (acc_add_points [4] 4
      { owningProgram := ACC_PROGRAM_ID, tag := USER_ACCOUNT_TAG,
        data := { owner := 4, balance := 0, points := U64_MOD - 1 } } 1).err =
      some Err.panicAbort ∧
    Err.panicAbort ∉ [Err.overflow, Err.insufficientPoints, Err.divisionByZero,
      Err.unauthorized, Err.insufficientFunds, Err.unauthorizedProgram,
      Err.ownershipMismatch, Err.typeTagMismatch, Err.derivationMismatch,
      Err.missingSignature, Err.hasOneMismatch, Err.invalidProgramId] := by
  constructor
  · decide
  · decide

/-- C7 amended: every validation failure, in every hardened program, is
surfaced as a structured typed error, as is every arithmetic failure of the
integer-overflow program's four explicitly checked handlers (account
unchanged); the unwrap-based checked-arithmetic handlers (ownership
`add_points`, PDA `deposit` and `withdraw`, signer-program `deposit`) instead
abort with an untyped panic on arithmetic failure — a panic arises only when
every verifier has passed and the checked operation failed, it is local to
the invocation, and it leaves the account state unchanged, but it is not a
structured, caller-recoverable error. -/
theorem c7_failures_typed_or_panic :
    (∀ signers a (u : User) q, a ∈ signers → u.authority = a →
      U64_MOD ≤ u.points + q →
      (io_add_points signers a u q).err = some Err.overflow ∧
      (io_add_points signers a u q).state = u) ∧
    (∀ signers a (u : User) q, a ∈ signers → u.authority = a →
      u.points < q →
      (io_remove_points signers a u q).err = some Err.insufficientPoints ∧
      (io_remove_points signers a u q).state = u) ∧
    (∀ signers a (u : User) m, a ∈ signers → u.authority = a →
      U64_MOD ≤ u.points * m →
      (io_calculate_tokens signers a u m).err = some Err.overflow ∧
      (io_calculate_tokens signers a u m).state = u) ∧
    (∀ signers a (u : User), a ∈ signers → u.authority = a →
      (io_calculate_average signers a u 0).err = some Err.divisionByZero ∧
      (io_calculate_average signers a u 0).state = u) ∧
    (∀ signers k (raw : RawAccount) q,
      raw.owningProgram = ACC_PROGRAM_ID → raw.tag = USER_ACCOUNT_TAG →
      k ∈ signers → raw.data.owner = k → U64_MOD ≤ raw.data.points + q →
      (acc_add_points signers k raw q).err = some Err.panicAbort ∧
      (acc_add_points signers k raw q).state = raw) ∧
    (∀ signers a (v : Vault) amt, a ∈ signers → v.balance < amt →
      (pda_withdraw signers a (derivePda VAULT_TAG a v.bump) v amt).err =
        some Err.panicAbort ∧
      (pda_withdraw signers a (derivePda VAULT_TAG a v.bump) v amt).state = v) ∧
    (∀ signers a (v : Vault) amt, a ∈ signers → U64_MOD ≤ v.balance + amt →
      (pda_deposit signers a (derivePda VAULT_TAG a v.bump) v amt).err =
        some Err.panicAbort ∧
      (pda_deposit signers a (derivePda VAULT_TAG a v.bump) v amt).state = v) ∧
    (∀ signers k (v : Vault) amt, k ∈ signers → U64_MOD ≤ v.balance + amt →
      (ms_deposit signers k (derivePda VAULT_TAG v.authority v.bump) v amt).err =
        some Err.panicAbort ∧
      (ms_deposit signers k (derivePda VAULT_TAG v.authority v.bump) v amt).state = v) ∧
    (∀ signers a (u : User) p e, (io_add_points signers a u p).err = some e →
      e ∈ structuredErrs) ∧
    (∀ signers a (u : User) p e, (io_remove_points signers a u p).err = some e →
      e ∈ structuredErrs) ∧
    (∀ signers a (u : User) m e, (io_calculate_tokens signers a u m).err = some e →
      e ∈ structuredErrs) ∧
    (∀ signers a (u : User) d e, (io_calculate_average signers a u d).err = some e →
      e ∈ structuredErrs) ∧
    (∀ signers k vaultAddr (v : Vault) amt e,
      (ms_deposit signers k vaultAddr v amt).err = some e →
      e ∈ structuredErrs ∨
        (e = Err.panicAbort ∧ k ∈ signers ∧
          vaultAddr = derivePda VAULT_TAG v.authority v.bump ∧
          U64_MOD ≤ v.balance + amt)) ∧
    (∀ signers a vaultAddr (v : Vault) amt e,
      (ms_withdraw signers a vaultAddr v amt).err = some e →
      e ∈ structuredErrs) ∧
    (∀ signers a vaultAddr (v : Vault) amt e,
      (pda_deposit signers a vaultAddr v amt).err = some e →
      e ∈ structuredErrs ∨
        (e = Err.panicAbort ∧ a ∈ signers ∧
          vaultAddr = derivePda VAULT_TAG a v.bump ∧
          U64_MOD ≤ v.balance + amt)) ∧
    (∀ signers a vaultAddr (v : Vault) amt e,
      (pda_withdraw signers a vaultAddr v amt).err = some e →
      e ∈ structuredErrs ∨
        (e = Err.panicAbort ∧ a ∈ signers ∧
          vaultAddr = derivePda VAULT_TAG a v.bump ∧ v.balance < amt)) ∧
    (∀ signers k (raw : RawAccount) p e,
      (acc_add_points signers k raw p).err = some e →
      e ∈ structuredErrs ∨
        (e = Err.panicAbort ∧ raw.owningProgram = ACC_PROGRAM_ID ∧
          raw.tag = USER_ACCOUNT_TAG ∧ k ∈ signers ∧ raw.data.owner = k ∧
          U64_MOD ≤ raw.data.points + p)) ∧
    (∀ signers k (raw : RawAccount) e,
      (acc_claim_reward signers k raw).1.err = some e →
      e ∈ structuredErrs) ∧
    (∀ signers a t e, (cpi_call_whitelisted signers a t).err = some e →
      e ∈ structuredErrs) ∧
    (∀ signers fo t2 a tp e,
      (cpi_execute_transfer signers fo t2 a tp).err = some e →
      e ∈ structuredErrs) ∧
    (∀ signers f sp e, (cpi_transfer_sol signers f sp).err = some e →
      e ∈ structuredErrs) := by
  refine ⟨?_, ?_, ?_, ?_, ?_, ?_, ?_, ?_, ?_, ?_, ?_, ?_, ?_, ?_, ?_, ?_, ?_,
    ?_, ?_, ?_, ?_⟩
  · intro signers a u q hs ha hq
    rw [io_add_points_overflow hs ha hq]
    exact ⟨rfl, rfl⟩
  · intro signers a u q hs ha hq
    unfold io_remove_points
    rw [updateUserCheck_none hs ha]
    unfold checked_sub
    rw [if_neg (by omega)]
    exact ⟨rfl, rfl⟩
  · intro signers a u m hs ha hq
    unfold io_calculate_tokens
    rw [updateUserCheck_none hs ha]
    unfold checked_mul
    rw [if_neg (by omega)]
    exact ⟨rfl, rfl⟩
  · intro signers a u hs ha
    unfold io_calculate_average
    rw [updateUserCheck_none hs ha]
    unfold checked_div
    rw [if_pos rfl]
    exact ⟨rfl, rfl⟩
  · intro signers k raw q h1 h2 hk h3 h4
    have hext : accountExtract raw = Except.ok raw.data :=
      accountExtract_ok_iff.mpr ⟨h1, h2, rfl⟩
    rw [acc_add_points_ok_eq hext]
    rw [if_neg (not_not_intro hk), if_neg (not_not_intro h3)]
    unfold checked_add
    rw [if_neg (by omega)]
    exact ⟨rfl, rfl⟩
  · intro signers a v amt hs hlt
    unfold pda_withdraw
    rw [if_neg (not_not_intro hs), if_neg (not_not_intro rfl)]
    unfold checked_sub
    rw [if_neg (by omega)]
    exact ⟨rfl, rfl⟩
  · intro signers a v amt hs hbound
    unfold pda_deposit
    rw [if_neg (not_not_intro hs), if_neg (not_not_intro rfl)]
    unfold checked_add
    rw [if_neg (by omega)]
    exact ⟨rfl, rfl⟩
  · intro signers k v amt hk hbound
    unfold ms_deposit
    rw [if_neg (not_not_intro hk), if_neg (not_not_intro rfl)]
    unfold checked_add
    rw [if_neg (by omega)]
    exact ⟨rfl, rfl⟩
  · intro signers a u p e h
    exact io_add_points_err h
  · intro signers a u p e h
    exact io_remove_points_err h
  · intro signers a u m e h
    exact io_calculate_tokens_err h
  · intro signers a u d e h
    exact io_calculate_average_err h
  · intro signers k vaultAddr v amt e h
    exact ms_deposit_err h
  · intro signers a vaultAddr v amt e h
    exact ms_withdraw_err h
  · intro signers a vaultAddr v amt e h
    exact pda_deposit_err h
  · intro signers a vaultAddr v amt e h
    exact pda_withdraw_err h
  · intro signers k raw p e h
    exact acc_add_points_err h
  · intro signers k raw e h
    exact acc_claim_reward_err h
  · intro signers a t e h
    exact cpi_call_whitelisted_err h
  · intro signers fo t2 a tp e h
    exact cpi_execute_transfer_err h
  · intro signers f sp e h
    exact cpi_transfer_sol_err h

/-- Witness for C7 (amended): a PDA `withdraw` of 20 from a balance of 10 at
the canonical address panics untyped and leaves the vault unchanged. -/
theorem c7_failures_typed_or_panic_witness :
    (4 : Pubkey) ∈ [(4 : Pubkey)] ∧
    (10 : Nat) < 20 ∧
    ((pda_withdraw [4] 4 (derivePda VAULT_TAG 4 9)
        { authority := 7, balance := 10, bump := 9 } 20).err =
      some Err.panicAbort ∧
     (pda_withdraw [4] 4 (derivePda VAULT_TAG 4 9)
        { authority := 7, balance := 10, bump := 9 } 20).state =
      { authority := 7, balance := 10, bump := 9 }) :=
  ⟨by decide, by decide,
   c7_failures_typed_or_panic.2.2.2.2.2.1 [4] 4
     { authority := 7, balance := 10, bump := 9 } 20 (by decide) (by decide)⟩

end AnchorSecurity
